import Mathlib

/-!
Verification development for the hermetic-mls delivery service.

The Rust sources are embedded shallowly:

* `src/db/mod.rs` — the five entity records, the `DbError` taxonomy, the
  `DatabaseInterface` trait, and the `PostgresDatabase` implementation.
  Tables are modelled as insertion-ordered lists of rows; `INSERT` appends,
  `UPDATE ... WHERE` maps over matching rows (and, as in SQL via sqlx
  `execute`, reports success even when zero rows match), `SELECT ... WHERE
  id` is `List.find?`, a `JOIN` produces one output row per matching pair,
  and `ORDER BY` is `List.insertionSort` (a canonical sorted permutation).
* `tests/mock_db.rs` — the `MockDatabase` test double (hash maps modelled
  as association lists keyed by id: insert replaces an existing key,
  otherwise appends; `values()` iterates in list order).
* `src/service/mod.rs` — the sixteen gRPC handlers of `MLSServiceImpl`,
  parameterized by a `DatabaseInterface` exactly as the Rust generic is.

Modelling conventions:
* `Uuid` is `Nat` (an opaque 128-bit token); the text rendering of an id at
  the wire boundary is `Option Nat`: `some u` is the canonical rendering of
  token `u`, `none` is a malformed string, so `Uuid::parse_str` succeeds
  exactly on `some`.
* `DateTime<Utc>` is `Nat`; `to_rfc3339` is an injective rendering, so wire
  responses keep the `Nat` (and an optional timestamp rendered with
  `unwrap_or_default` keeps the `Option`).  The several `Utc::now()` calls
  inside one handler are modelled by a single `now` argument.
* Byte strings (`Vec<u8>`) are `List Nat`.
* `i64`/`u64` casts (`as i64`, `as u64`) are modelled exactly on
  `Int`/`Nat` with two's-complement wrapping.
* Randomness and cryptographic outputs (`Uuid::new_v4`, HPKE key
  derivation, the key package built by `KeyPackage::builder`) are oracle
  arguments of the handlers; the credential serialization
  (`Credential::tls_serialize_detached` of a `BasicCredential`) is a pure
  function of the identity and is embedded concretely (TLS u16 credential
  type 1 followed by a variable-length byte vector).
* OpenMLS deep key-package format validation (an external collaborator per
  the spec) is a boolean parameter `kp_format_ok` of the service
  configuration; the remaining validators are the source's emptiness
  checks.
-/

/-- Opaque byte strings (`Vec<u8>`). -/
abbrev Bytes := List Nat

/-- `u64 as i64`: two's-complement reinterpretation. -/
def i64_of_u64 (n : Nat) : Int :=
  if n < 2 ^ 63 then (n : Int) else (n : Int) - 2 ^ 64

/-- `i64 as u64`: two's-complement reinterpretation. -/
def u64_of_i64 (e : Int) : Nat :=
  if 0 ≤ e then e.toNat else (e + 2 ^ 64).toNat

/-- tls-codec variable-length length prefix (RFC 9000 style varint, as the
`VLBytes` serializer writes it). -/
def vlLen (n : Nat) : List Nat :=
  if n < 0x40 then [n]
  else if n < 0x4000 then [0x40 + n / 256, n % 256]
  else if n < 0x40000000 then
    [0x80 + n / 16777216, n / 65536 % 256, n / 256 % 256, n % 256]
  else
    [0xC0 + n / 72057594037927936,
     n / 281474976710656 % 256, n / 1099511627776 % 256,
     n / 4294967296 % 256, n / 16777216 % 256,
     n / 65536 % 256, n / 256 % 256, n % 256]

/-- `Credential::from(BasicCredential::new(identity)).tls_serialize_detached()`:
credential type `basic = 1` as a big-endian u16, then the identity bytes as
a variable-length vector.  A pure function of the identity. -/
def credentialBytes (identity : Bytes) : Bytes :=
  0 :: 1 :: (vlLen identity.length ++ identity)

/-- Decoder for the variable-length length prefix: returns the decoded
length and the remaining bytes. -/
def vlDecode : List Nat → Option (Nat × List Nat)
  | [] => none
  | b0 :: rest =>
    if b0 < 0x40 then some (b0, rest)
    else if b0 < 0x80 then
      match rest with
      | b1 :: r => some ((b0 - 0x40) * 256 + b1, r)
      | _ => none
    else if b0 < 0xC0 then
      match rest with
      | b1 :: b2 :: b3 :: r =>
        some (((b0 - 0x80) * 16777216) + b1 * 65536 + b2 * 256 + b3, r)
      | _ => none
    else
      match rest with
      | b1 :: b2 :: b3 :: b4 :: b5 :: b6 :: b7 :: r =>
        some ((b0 - 0xC0) * 72057594037927936 + b1 * 281474976710656 +
              b2 * 1099511627776 + b3 * 4294967296 + b4 * 16777216 +
              b5 * 65536 + b6 * 256 + b7, r)
      | _ => none

/-- `Credential::tls_deserialize` on stored credential bytes: reads the
u16 credential type (must be `basic = 1`) and the variable-length identity;
trailing bytes are permitted, as tls-codec reads from a cursor. -/
def decodeCredential (b : Bytes) : Option Bytes :=
  match b with
  | 0 :: 1 :: rest =>
    match vlDecode rest with
    | some (n, body) => if n ≤ body.length then some (body.take n) else none
    | none => none
  | _ => none

/-- `db::Client` (src/db/mod.rs); the `init_key` field is the optional
initial key-exchange public key the service and the tests both populate
(the struct in db/mod.rs omits it, a discrepancy of the source itself). -/
structure Db.Client where
  id : Nat
  user_id : Nat
  credential : Bytes
  scheme : String
  device_name : String
  last_seen : Nat
  created_at : Nat
  init_key : Option Bytes
deriving Repr, DecidableEq

/-- `db::KeyPackage` (src/db/mod.rs). -/
structure Db.KeyPackage where
  id : Nat
  client_id : Nat
  data : Bytes
  created_at : Nat
  used : Bool
deriving Repr, DecidableEq

/-- `db::Group` (src/db/mod.rs); `epoch` is an `i64`. -/
structure Db.Group where
  id : Nat
  creator_id : Nat
  epoch : Int
  state : Option Bytes
  created_at : Nat
  updated_at : Nat
  is_active : Bool
deriving Repr, DecidableEq

/-- `db::Membership` (src/db/mod.rs). -/
structure Db.Membership where
  id : Nat
  client_id : Nat
  group_id : Nat
  role : String
  added_at : Nat
  removed_at : Option Nat
deriving Repr, DecidableEq

/-- `db::Message` (src/db/mod.rs); `epoch` is an `Option<i64>`. -/
structure Db.Message where
  id : Nat
  group_id : Nat
  sender_id : Nat
  created_at : Nat
  read : Bool
  message_type : String
  proposal : Option Bytes
  commit : Option Bytes
  welcome : Option Bytes
  proposal_type : Option String
  epoch : Option Int
  recipients : Option (List Nat)
deriving Repr, DecidableEq

/-- `db::DbError` (src/db/mod.rs). -/
inductive DbError where
  | notFound
  | connectionError (msg : String)
  | queryError (msg : String)
  | serializationError (msg : String)
deriving Repr, DecidableEq

/-- The store's state: one table (insertion-ordered list of rows) per
entity; for the mock these same lists are the association lists backing the
five hash maps. -/
structure DSState where
  clients : List Db.Client
  keyPackages : List Db.KeyPackage
  groups : List Db.Group
  memberships : List Db.Membership
  messages : List Db.Message
deriving Repr, DecidableEq

/-- The empty store. -/
def DSState.empty : DSState :=
  { clients := [], keyPackages := [], groups := [], memberships := [],
    messages := [] }

/-- The `DatabaseInterface` trait (src/db/mod.rs); each method threads the
store state explicitly, returning the post-state even on error (interior
mutation already performed is not rolled back).  Methods whose Rust body
calls `Utc::now()` take that observation as an extra `now` argument. -/
structure DatabaseInterface where
  register_client : DSState → Db.Client → Except DbError Unit × DSState
  get_client : DSState → Nat → Except DbError Db.Client × DSState
  list_clients_by_user : DSState → Nat → Except DbError (List Db.Client) × DSState
  update_client_last_seen : DSState → Nat → Nat → Except DbError Unit × DSState
  store_key_package : DSState → Db.KeyPackage → Except DbError Unit × DSState
  get_key_package : DSState → Nat → Except DbError Db.KeyPackage × DSState
  list_key_packages_by_client :
    DSState → Nat → Except DbError (List Db.KeyPackage) × DSState
  mark_key_package_used : DSState → Nat → Except DbError Unit × DSState
  create_group : DSState → Db.Group → Except DbError Unit × DSState
  get_group : DSState → Nat → Except DbError Db.Group × DSState
  list_groups_by_client : DSState → Nat → Except DbError (List Db.Group) × DSState
  update_group_epoch :
    DSState → Nat → Int → Nat → Except DbError Unit × DSState
  update_group_state :
    DSState → Nat → Bytes → Nat → Except DbError Unit × DSState
  add_membership : DSState → Db.Membership → Except DbError Unit × DSState
  remove_membership : DSState → Nat → Nat → Except DbError Unit × DSState
  list_memberships_by_group :
    DSState → Nat → Except DbError (List Db.Membership) × DSState
  list_memberships_by_client :
    DSState → Nat → Except DbError (List Db.Membership) × DSState
  store_message : DSState → Db.Message → Except DbError Unit × DSState
  fetch_messages_for_client :
    DSState → Nat → Option Nat → Bool → Except DbError (List Db.Message) × DSState
  mark_messages_read : DSState → List Nat → Except DbError Unit × DSState

/-- `ORDER BY t DESC`: newest first by the given timestamp projection. -/
def sortNewestFirst {α : Type} (ts : α → Nat) (l : List α) : List α :=
  l.insertionSort (fun a b => ts b ≤ ts a)

/-- `ORDER BY t ASC`: oldest first by the given timestamp projection. -/
def sortOldestFirst {α : Type} (ts : α → Nat) (l : List α) : List α :=
  l.insertionSort (fun a b => ts a ≤ ts b)

/-- `INSERT INTO clients ...` (PostgresDatabase::register_client). -/
def Pg.register_client (s : DSState) (c : Db.Client) :
    Except DbError Unit × DSState :=
  (.ok (), { s with clients := s.clients ++ [c] })

/-- `SELECT * FROM clients WHERE id = $1` with `fetch_optional`;
absence is `NotFound` (PostgresDatabase::get_client). -/
def Pg.get_client (s : DSState) (client_id : Nat) :
    Except DbError Db.Client × DSState :=
  match s.clients.find? (fun c => c.id == client_id) with
  | some c => (.ok c, s)
  | none => (.error .notFound, s)

/-- `SELECT * FROM clients WHERE user_id = $1 ORDER BY created_at DESC`
(PostgresDatabase::list_clients_by_user). -/
def Pg.list_clients_by_user (s : DSState) (user_id : Nat) :
    Except DbError (List Db.Client) × DSState :=
  (.ok (sortNewestFirst (fun c => c.created_at)
      (s.clients.filter (fun c => c.user_id == user_id))), s)

/-- `UPDATE clients SET last_seen = $1 WHERE id = $2`; succeeds even when
no row matches (PostgresDatabase::update_client_last_seen). -/
def Pg.update_client_last_seen (s : DSState) (client_id now : Nat) :
    Except DbError Unit × DSState :=
  let clients := s.clients.map (fun c =>
    if c.id == client_id then { c with last_seen := now } else c)
  (.ok (), { s with clients := clients })

/-- `INSERT INTO key_packages ...` (PostgresDatabase::store_key_package). -/
def Pg.store_key_package (s : DSState) (kp : Db.KeyPackage) :
    Except DbError Unit × DSState :=
  (.ok (), { s with keyPackages := s.keyPackages ++ [kp] })

/-- `SELECT * FROM key_packages WHERE id = $1` with `fetch_optional`; note:
no filter on `used` (PostgresDatabase::get_key_package). -/
def Pg.get_key_package (s : DSState) (key_package_id : Nat) :
    Except DbError Db.KeyPackage × DSState :=
  match s.keyPackages.find? (fun kp => kp.id == key_package_id) with
  | some kp => (.ok kp, s)
  | none => (.error .notFound, s)

/-- `SELECT * FROM key_packages WHERE client_id = $1 AND used = false
ORDER BY created_at DESC` (PostgresDatabase::list_key_packages_by_client). -/
def Pg.list_key_packages_by_client (s : DSState) (client_id : Nat) :
    Except DbError (List Db.KeyPackage) × DSState :=
  (.ok (sortNewestFirst (fun kp => kp.created_at)
      (s.keyPackages.filter
        (fun kp => kp.client_id == client_id && kp.used == false))), s)

/-- `UPDATE key_packages SET used = true WHERE id = $1`
(PostgresDatabase::mark_key_package_used). -/
def Pg.mark_key_package_used (s : DSState) (key_package_id : Nat) :
    Except DbError Unit × DSState :=
  let kps := s.keyPackages.map (fun kp =>
    if kp.id == key_package_id then { kp with used := true } else kp)
  (.ok (), { s with keyPackages := kps })

/-- `INSERT INTO groups ...` (PostgresDatabase::create_group). -/
def Pg.create_group (s : DSState) (g : Db.Group) :
    Except DbError Unit × DSState :=
  (.ok (), { s with groups := s.groups ++ [g] })

/-- `SELECT * FROM groups WHERE id = $1` with `fetch_optional`
(PostgresDatabase::get_group). -/
def Pg.get_group (s : DSState) (group_id : Nat) :
    Except DbError Db.Group × DSState :=
  match s.groups.find? (fun g => g.id == group_id) with
  | some g => (.ok g, s)
  | none => (.error .notFound, s)

/-- `SELECT g.* FROM groups g JOIN memberships m ON g.id = m.group_id WHERE
m.client_id = $1 AND m.removed_at IS NULL AND g.is_active = true ORDER BY
g.updated_at DESC`: one row per matching (membership, group) pair, then
sorted (PostgresDatabase::list_groups_by_client). -/
def Pg.list_groups_by_client (s : DSState) (client_id : Nat) :
    Except DbError (List Db.Group) × DSState :=
  (.ok (sortNewestFirst (fun g => g.updated_at)
      (s.memberships.flatMap (fun m =>
        if m.client_id == client_id && m.removed_at == none then
          s.groups.filter (fun g => g.id == m.group_id && g.is_active)
        else []))), s)

/-- `UPDATE groups SET epoch = $1, updated_at = $2 WHERE id = $3`; succeeds
even when no row matches (PostgresDatabase::update_group_epoch). -/
def Pg.update_group_epoch (s : DSState) (group_id : Nat) (epoch : Int)
    (now : Nat) : Except DbError Unit × DSState :=
  let gs := s.groups.map (fun g =>
    if g.id == group_id then { g with epoch := epoch, updated_at := now }
    else g)
  (.ok (), { s with groups := gs })

/-- `UPDATE groups SET state = $1, updated_at = $2 WHERE id = $3`
(PostgresDatabase::update_group_state). -/
def Pg.update_group_state (s : DSState) (group_id : Nat) (st : Bytes)
    (now : Nat) : Except DbError Unit × DSState :=
  let gs := s.groups.map (fun g =>
    if g.id == group_id then { g with state := some st, updated_at := now }
    else g)
  (.ok (), { s with groups := gs })

/-- `INSERT INTO memberships ...` (PostgresDatabase::add_membership). -/
def Pg.add_membership (s : DSState) (m : Db.Membership) :
    Except DbError Unit × DSState :=
  (.ok (), { s with memberships := s.memberships ++ [m] })

/-- `UPDATE memberships SET removed_at = $1 WHERE id = $2`; sqlx `execute`
reports success even when zero rows match, so an unknown id does not yield
`NotFound` (PostgresDatabase::remove_membership). -/
def Pg.remove_membership (s : DSState) (membership_id now : Nat) :
    Except DbError Unit × DSState :=
  let ms := s.memberships.map (fun m =>
    if m.id == membership_id then { m with removed_at := some now } else m)
  (.ok (), { s with memberships := ms })

/-- `SELECT * FROM memberships WHERE group_id = $1 AND removed_at IS NULL`
(PostgresDatabase::list_memberships_by_group); note the query filters out
removed memberships. -/
def Pg.list_memberships_by_group (s : DSState) (group_id : Nat) :
    Except DbError (List Db.Membership) × DSState :=
  (.ok (s.memberships.filter
      (fun m => m.group_id == group_id && m.removed_at == none)), s)

/-- `SELECT * FROM memberships WHERE client_id = $1 AND removed_at IS NULL`
(PostgresDatabase::list_memberships_by_client). -/
def Pg.list_memberships_by_client (s : DSState) (client_id : Nat) :
    Except DbError (List Db.Membership) × DSState :=
  (.ok (s.memberships.filter
      (fun m => m.client_id == client_id && m.removed_at == none)), s)

/-- `INSERT INTO messages ...` (PostgresDatabase::store_message). -/
def Pg.store_message (s : DSState) (m : Db.Message) :
    Except DbError Unit × DSState :=
  (.ok (), { s with messages := s.messages ++ [m] })

/-- `SELECT m.* FROM messages m JOIN memberships mem ON m.group_id =
mem.group_id WHERE mem.client_id = $1 [AND m.group_id = $2] [AND m.read =
false] ORDER BY m.created_at ASC`: one row per matching (message,
membership) pair; the join has no `removed_at` condition
(PostgresDatabase::fetch_messages_for_client). -/
def Pg.fetch_messages_for_client (s : DSState) (client_id : Nat)
    (group_id : Option Nat) (include_read : Bool) :
    Except DbError (List Db.Message) × DSState :=
  (.ok (sortOldestFirst (fun m => m.created_at)
      (s.messages.flatMap (fun m =>
        ((s.memberships.filter (fun mem =>
            mem.group_id == m.group_id && mem.client_id == client_id)).map
          (fun _ => m)).filter (fun m =>
            (match group_id with
             | some g => m.group_id == g
             | none => true) &&
            (include_read || m.read == false))))), s)

/-- `UPDATE messages SET read = true WHERE id = $1` once per id, in one
transaction (PostgresDatabase::mark_messages_read). -/
def Pg.mark_messages_read (s : DSState) (message_ids : List Nat) :
    Except DbError Unit × DSState :=
  let msgs := s.messages.map (fun m =>
    if message_ids.contains m.id then { m with read := true } else m)
  (.ok (), { s with messages := msgs })

/-- The `PostgresDatabase` implementation of the trait (src/db/mod.rs). -/
def PgDb : DatabaseInterface where
  register_client := Pg.register_client
  get_client := Pg.get_client
  list_clients_by_user := Pg.list_clients_by_user
  update_client_last_seen := Pg.update_client_last_seen
  store_key_package := Pg.store_key_package
  get_key_package := Pg.get_key_package
  list_key_packages_by_client := Pg.list_key_packages_by_client
  mark_key_package_used := Pg.mark_key_package_used
  create_group := Pg.create_group
  get_group := Pg.get_group
  list_groups_by_client := Pg.list_groups_by_client
  update_group_epoch := Pg.update_group_epoch
  update_group_state := Pg.update_group_state
  add_membership := Pg.add_membership
  remove_membership := Pg.remove_membership
  list_memberships_by_group := Pg.list_memberships_by_group
  list_memberships_by_client := Pg.list_memberships_by_client
  store_message := Pg.store_message
  fetch_messages_for_client := Pg.fetch_messages_for_client
  mark_messages_read := Pg.mark_messages_read

/-- `HashMap::insert`: replace the row with the same key if present,
otherwise append (tests/mock_db.rs). -/
def mockInsert {α : Type} (key : α → Nat) (rows : List α) (r : α) : List α :=
  if rows.any (fun x => key x == key r) then
    rows.map (fun x => if key x == key r then r else x)
  else rows ++ [r]

/-- MockDatabase::register_client. -/
def Mock.register_client (s : DSState) (c : Db.Client) :
    Except DbError Unit × DSState :=
  (.ok (), { s with clients := mockInsert (fun x => x.id) s.clients c })

/-- MockDatabase::get_client. -/
def Mock.get_client (s : DSState) (client_id : Nat) :
    Except DbError Db.Client × DSState :=
  match s.clients.find? (fun c => c.id == client_id) with
  | some c => (.ok c, s)
  | none => (.error .notFound, s)

/-- MockDatabase::list_clients_by_user: filter only, no ordering. -/
def Mock.list_clients_by_user (s : DSState) (user_id : Nat) :
    Except DbError (List Db.Client) × DSState :=
  (.ok (s.clients.filter (fun c => c.user_id == user_id)), s)

/-- MockDatabase::update_client_last_seen: `NotFound` when the id is
absent. -/
def Mock.update_client_last_seen (s : DSState) (client_id now : Nat) :
    Except DbError Unit × DSState :=
  if s.clients.any (fun c => c.id == client_id) then
    let clients := s.clients.map (fun c =>
      if c.id == client_id then { c with last_seen := now } else c)
    (.ok (), { s with clients := clients })
  else (.error .notFound, s)

/-- MockDatabase::store_key_package. -/
def Mock.store_key_package (s : DSState) (kp : Db.KeyPackage) :
    Except DbError Unit × DSState :=
  let kps := mockInsert (fun x => x.id) s.keyPackages kp
  (.ok (), { s with keyPackages := kps })

/-- MockDatabase::get_key_package. -/
def Mock.get_key_package (s : DSState) (key_package_id : Nat) :
    Except DbError Db.KeyPackage × DSState :=
  match s.keyPackages.find? (fun kp => kp.id == key_package_id) with
  | some kp => (.ok kp, s)
  | none => (.error .notFound, s)

/-- MockDatabase::list_key_packages_by_client: filters by owner only — no
`used` filter and no ordering, unlike the Postgres query. -/
def Mock.list_key_packages_by_client (s : DSState) (client_id : Nat) :
    Except DbError (List Db.KeyPackage) × DSState :=
  (.ok (s.keyPackages.filter (fun kp => kp.client_id == client_id)), s)

/-- MockDatabase::mark_key_package_used: `NotFound` when absent. -/
def Mock.mark_key_package_used (s : DSState) (key_package_id : Nat) :
    Except DbError Unit × DSState :=
  if s.keyPackages.any (fun kp => kp.id == key_package_id) then
    let kps := s.keyPackages.map (fun kp =>
      if kp.id == key_package_id then { kp with used := true } else kp)
    (.ok (), { s with keyPackages := kps })
  else (.error .notFound, s)

/-- MockDatabase::create_group. -/
def Mock.create_group (s : DSState) (g : Db.Group) :
    Except DbError Unit × DSState :=
  (.ok (), { s with groups := mockInsert (fun x => x.id) s.groups g })

/-- MockDatabase::get_group. -/
def Mock.get_group (s : DSState) (group_id : Nat) :
    Except DbError Db.Group × DSState :=
  match s.groups.find? (fun g => g.id == group_id) with
  | some g => (.ok g, s)
  | none => (.error .notFound, s)

/-- MockDatabase::list_groups_by_client: groups with an active membership
for the client; no `is_active` check and no ordering, unlike Postgres. -/
def Mock.list_groups_by_client (s : DSState) (client_id : Nat) :
    Except DbError (List Db.Group) × DSState :=
  let ids := (s.memberships.filter (fun m =>
    m.client_id == client_id && m.removed_at == none)).map (fun m =>
      m.group_id)
  (.ok (s.groups.filter (fun g => ids.contains g.id)), s)

/-- MockDatabase::update_group_epoch: sets the epoch to the given value
(no monotonicity check), updates `updated_at`; `NotFound` when absent. -/
def Mock.update_group_epoch (s : DSState) (group_id : Nat) (epoch : Int)
    (now : Nat) : Except DbError Unit × DSState :=
  if s.groups.any (fun g => g.id == group_id) then
    let gs := s.groups.map (fun g =>
      if g.id == group_id then { g with epoch := epoch, updated_at := now }
      else g)
    (.ok (), { s with groups := gs })
  else (.error .notFound, s)

/-- MockDatabase::update_group_state: `NotFound` when absent. -/
def Mock.update_group_state (s : DSState) (group_id : Nat) (st : Bytes)
    (now : Nat) : Except DbError Unit × DSState :=
  if s.groups.any (fun g => g.id == group_id) then
    let gs := s.groups.map (fun g =>
      if g.id == group_id then { g with state := some st, updated_at := now }
      else g)
    (.ok (), { s with groups := gs })
  else (.error .notFound, s)

/-- MockDatabase::add_membership. -/
def Mock.add_membership (s : DSState) (m : Db.Membership) :
    Except DbError Unit × DSState :=
  let ms := mockInsert (fun x => x.id) s.memberships m
  (.ok (), { s with memberships := ms })

/-- MockDatabase::remove_membership: `NotFound` when the id is absent,
otherwise overwrites `removed_at`. -/
def Mock.remove_membership (s : DSState) (membership_id now : Nat) :
    Except DbError Unit × DSState :=
  if s.memberships.any (fun m => m.id == membership_id) then
    let ms := s.memberships.map (fun m =>
      if m.id == membership_id then { m with removed_at := some now } else m)
    (.ok (), { s with memberships := ms })
  else (.error .notFound, s)

/-- MockDatabase::list_memberships_by_group: all rows of the group,
removed ones included. -/
def Mock.list_memberships_by_group (s : DSState) (group_id : Nat) :
    Except DbError (List Db.Membership) × DSState :=
  (.ok (s.memberships.filter (fun m => m.group_id == group_id)), s)

/-- MockDatabase::list_memberships_by_client: all rows of the client,
removed ones included. -/
def Mock.list_memberships_by_client (s : DSState) (client_id : Nat) :
    Except DbError (List Db.Membership) × DSState :=
  (.ok (s.memberships.filter (fun m => m.client_id == client_id)), s)

/-- MockDatabase::store_message. -/
def Mock.store_message (s : DSState) (m : Db.Message) :
    Except DbError Unit × DSState :=
  (.ok (), { s with messages := mockInsert (fun x => x.id) s.messages m })

/-- MockDatabase::fetch_messages_for_client: with a group filter, messages
of that group regardless of membership; without, messages of groups where
the client has an active membership; then the read filter.  No ordering. -/
def Mock.fetch_messages_for_client (s : DSState) (client_id : Nat)
    (group_id : Option Nat) (include_read : Bool) :
    Except DbError (List Db.Message) × DSState :=
  let activeGroupIds := (s.memberships.filter (fun m =>
    m.client_id == client_id && m.removed_at == none)).map (fun m =>
      m.group_id)
  (.ok (s.messages.filter (fun m =>
    (match group_id with
     | some g => m.group_id == g
     | none => activeGroupIds.contains m.group_id) &&
    (include_read || m.read == false))), s)

/-- MockDatabase::mark_messages_read: best effort, unknown ids skipped. -/
def Mock.mark_messages_read (s : DSState) (message_ids : List Nat) :
    Except DbError Unit × DSState :=
  let msgs := s.messages.map (fun m =>
    if message_ids.contains m.id then { m with read := true } else m)
  (.ok (), { s with messages := msgs })

/-- The `MockDatabase` test double as an implementation of the trait
(tests/mock_db.rs). -/
def MockDb : DatabaseInterface where
  register_client := Mock.register_client
  get_client := Mock.get_client
  list_clients_by_user := Mock.list_clients_by_user
  update_client_last_seen := Mock.update_client_last_seen
  store_key_package := Mock.store_key_package
  get_key_package := Mock.get_key_package
  list_key_packages_by_client := Mock.list_key_packages_by_client
  mark_key_package_used := Mock.mark_key_package_used
  create_group := Mock.create_group
  get_group := Mock.get_group
  list_groups_by_client := Mock.list_groups_by_client
  update_group_epoch := Mock.update_group_epoch
  update_group_state := Mock.update_group_state
  add_membership := Mock.add_membership
  remove_membership := Mock.remove_membership
  list_memberships_by_group := Mock.list_memberships_by_group
  list_memberships_by_client := Mock.list_memberships_by_client
  store_message := Mock.store_message
  fetch_messages_for_client := Mock.fetch_messages_for_client
  mark_messages_read := Mock.mark_messages_read

/-- `tonic::Code` values the service produces. -/
inductive StatusCode where
  | notFound
  | invalidArgument
  | unavailable
  | internal
deriving Repr, DecidableEq

/-- `tonic::Status`: a stable kind plus a human-readable detail string. -/
structure Status where
  code : StatusCode
  msg : String
deriving Repr, DecidableEq

/-- MLSServiceImpl::map_db_error (src/service/mod.rs). -/
def map_db_error : DbError → Status
  | .notFound => { code := .notFound, msg := "Resource not found" }
  | .connectionError m => { code := .unavailable, msg := m }
  | .queryError m =>
    { code := .internal, msg := "Database query error: " ++ m }
  | .serializationError m =>
    { code := .internal, msg := "Serialization error: " ++ m }

/-- MLSServiceImpl::parse_uuid: `Uuid::parse_str` succeeds exactly on the
canonical rendering of a token (`some`), fails on a malformed string
(`none`). -/
def parse_uuid : Option Nat → Except Status Nat
  | some u => .ok u
  | none =>
    .error { code := .invalidArgument, msg := "Invalid UUID format" }

/-- The service-instance configuration: the `skip_validation` flag and, as
the external Validator collaborator, the OpenMLS key-package format check
(`KeyPackageIn::tls_deserialize` plus `validate`) as an opaque boolean
predicate. -/
structure ServiceConfig where
  skip_validation : Bool
  kp_format_ok : Bytes → Bool

/-- MLSServiceImpl::validate_key_package: skip flag, emptiness check, then
the OpenMLS deserialization/validation. -/
def validate_key_package (cfg : ServiceConfig) (key_package_bytes : Bytes) :
    Except Status Unit :=
  if cfg.skip_validation then .ok ()
  else if key_package_bytes.isEmpty then
    .error { code := .invalidArgument, msg := "Empty key package" }
  else if cfg.kp_format_ok key_package_bytes then .ok ()
  else
    .error { code := .invalidArgument, msg := "Invalid key package" }

/-- MLSServiceImpl::validate_group_state: skip flag, then only an
emptiness check. -/
def validate_group_state (cfg : ServiceConfig) (group_state_bytes : Bytes) :
    Except Status Unit :=
  if cfg.skip_validation then .ok ()
  else if group_state_bytes.isEmpty then
    .error { code := .invalidArgument, msg := "Empty group state" }
  else .ok ()

/-- MLSServiceImpl::validate_proposal: skip flag, then only an emptiness
check. -/
def validate_proposal (cfg : ServiceConfig) (proposal_bytes : Bytes) :
    Except Status Unit :=
  if cfg.skip_validation then .ok ()
  else if proposal_bytes.isEmpty then
    .error { code := .invalidArgument, msg := "Empty proposal" }
  else .ok ()

/-- MLSServiceImpl::validate_commit: skip flag, then only an emptiness
check. -/
def validate_commit (cfg : ServiceConfig) (commit_bytes : Bytes) :
    Except Status Unit :=
  if cfg.skip_validation then .ok ()
  else if commit_bytes.isEmpty then
    .error { code := .invalidArgument, msg := "Empty commit" }
  else .ok ()

/-- MLSServiceImpl::validate_welcome: skip flag, then only an emptiness
check. -/
def validate_welcome (cfg : ServiceConfig) (welcome_bytes : Bytes) :
    Except Status Unit :=
  if cfg.skip_validation then .ok ()
  else if welcome_bytes.isEmpty then
    .error { code := .invalidArgument, msg := "Empty welcome message" }
  else .ok ()

/-- Wire request `mls::RegisterClientRequest`; `identity` is the UTF-8
byte content of the identity string (the handler only ever uses
`identity.as_bytes()`). -/
structure Mls.RegisterClientRequest where
  user_id : Option Nat
  identity : Bytes
  device_name : String
deriving Repr, DecidableEq

/-- Wire request `mls::GetClientRequest`. -/
structure Mls.GetClientRequest where
  client_id : Option Nat
deriving Repr, DecidableEq

/-- Wire request `mls::ListClientsRequest`. -/
structure Mls.ListClientsRequest where
  user_id : Option Nat
deriving Repr, DecidableEq

/-- Wire request `mls::PublishKeyPackageRequest`; carries the key-package
bytes supplied by the caller. -/
structure Mls.PublishKeyPackageRequest where
  client_id : Option Nat
  key_package : Bytes
deriving Repr, DecidableEq

/-- Wire request `mls::GetKeyPackageRequest`. -/
structure Mls.GetKeyPackageRequest where
  key_package_id : Option Nat
deriving Repr, DecidableEq

/-- Wire request `mls::ListKeyPackagesRequest`. -/
structure Mls.ListKeyPackagesRequest where
  client_id : Option Nat
deriving Repr, DecidableEq

/-- Wire request `mls::CreateGroupRequest`. -/
structure Mls.CreateGroupRequest where
  creator_id : Option Nat
  initial_state : Bytes
deriving Repr, DecidableEq

/-- Wire request `mls::GetGroupRequest`. -/
structure Mls.GetGroupRequest where
  group_id : Option Nat
deriving Repr, DecidableEq

/-- Wire request `mls::ListGroupsRequest`. -/
structure Mls.ListGroupsRequest where
  client_id : Option Nat
deriving Repr, DecidableEq

/-- Wire request `mls::AddMemberRequest`. -/
structure Mls.AddMemberRequest where
  group_id : Option Nat
  client_id : Option Nat
  role : String
deriving Repr, DecidableEq

/-- Wire request `mls::RemoveMemberRequest`. -/
structure Mls.RemoveMemberRequest where
  membership_id : Option Nat
deriving Repr, DecidableEq

/-- Wire request `mls::ListMembershipsRequest`. -/
structure Mls.ListMembershipsRequest where
  group_id : Option Nat
deriving Repr, DecidableEq

/-- Wire request `mls::StoreProposalRequest`. -/
structure Mls.StoreProposalRequest where
  group_id : Option Nat
  sender_id : Option Nat
  proposal : Bytes
  proposal_type : String
deriving Repr, DecidableEq

/-- Wire request `mls::StoreCommitRequest`; `epoch` is a `u64`. -/
structure Mls.StoreCommitRequest where
  group_id : Option Nat
  sender_id : Option Nat
  commit : Bytes
  epoch : Nat
deriving Repr, DecidableEq

/-- Wire request `mls::StoreWelcomeRequest`. -/
structure Mls.StoreWelcomeRequest where
  group_id : Option Nat
  sender_id : Option Nat
  welcome : Bytes
  recipient_ids : List (Option Nat)
deriving Repr, DecidableEq

/-- Wire request `mls::FetchMessagesRequest`; the proto `group_id` string
is empty (`none`) for no filter, otherwise a possibly malformed id text
(`some`). -/
structure Mls.FetchMessagesRequest where
  client_id : Option Nat
  group_id : Option (Option Nat)
  include_read : Bool
deriving Repr, DecidableEq

/-- Wire record `mls::Client` as built by the handlers. -/
structure Mls.Client where
  id : Nat
  user_id : Nat
  credential : Bytes
  scheme : String
  device_name : String
  last_seen : Nat
  created_at : Nat
deriving Repr, DecidableEq

/-- The `mls::Client { ... }` conversion the handlers perform. -/
def Mls.clientView (c : Db.Client) : Mls.Client :=
  { id := c.id, user_id := c.user_id, credential := c.credential,
    scheme := c.scheme, device_name := c.device_name,
    last_seen := c.last_seen, created_at := c.created_at }

/-- Wire record `mls::KeyPackage`; exposes the stored `used` flag. -/
structure Mls.KeyPackage where
  id : Nat
  client_id : Nat
  data : Bytes
  created_at : Nat
  used : Bool
deriving Repr, DecidableEq

/-- The `mls::KeyPackage { ... }` conversion the handlers perform. -/
def Mls.keyPackageView (kp : Db.KeyPackage) : Mls.KeyPackage :=
  { id := kp.id, client_id := kp.client_id, data := kp.data,
    created_at := kp.created_at, used := kp.used }

/-- Wire record `mls::Group`; `epoch` is the `u64` reinterpretation of the
stored `i64`, `state` is `unwrap_or_default`. -/
structure Mls.Group where
  id : Nat
  creator_id : Nat
  epoch : Nat
  state : Bytes
  created_at : Nat
  updated_at : Nat
  is_active : Bool
deriving Repr, DecidableEq

/-- The `mls::Group { ... }` conversion the handlers perform. -/
def Mls.groupView (g : Db.Group) : Mls.Group :=
  { id := g.id, creator_id := g.creator_id, epoch := u64_of_i64 g.epoch,
    state := g.state.getD [], created_at := g.created_at,
    updated_at := g.updated_at, is_active := g.is_active }

/-- Wire record `mls::Membership`; `removed_at` is rendered with
`unwrap_or_default` (empty string for `None`), kept here as the option. -/
structure Mls.Membership where
  id : Nat
  client_id : Nat
  group_id : Nat
  role : String
  added_at : Nat
  removed_at : Option Nat
deriving Repr, DecidableEq

/-- The `mls::Membership { ... }` conversion the handlers perform. -/
def Mls.membershipView (m : Db.Membership) : Mls.Membership :=
  { id := m.id, client_id := m.client_id, group_id := m.group_id,
    role := m.role, added_at := m.added_at, removed_at := m.removed_at }

/-- The tagged-union content of a wire `mls::Message`. -/
inductive Mls.Content where
  | proposal (bytes : Bytes)
  | commit (bytes : Bytes)
  | welcome (bytes : Bytes)
deriving Repr, DecidableEq

/-- Wire record `mls::Message`. -/
structure Mls.Message where
  id : Nat
  group_id : Nat
  sender_id : Nat
  created_at : Nat
  read : Bool
  message_type : String
  content : Option Mls.Content
deriving Repr, DecidableEq

/-- The message conversion in fetch_messages: content is set from the
first populated payload field, proposal first, then commit, then
welcome. -/
def Mls.messageView (m : Db.Message) : Mls.Message :=
  { id := m.id, group_id := m.group_id, sender_id := m.sender_id,
    created_at := m.created_at, read := m.read,
    message_type := m.message_type,
    content :=
      match m.proposal, m.commit, m.welcome with
      | some p, _, _ => some (.proposal p)
      | none, some c, _ => some (.commit c)
      | none, none, some w => some (.welcome w)
      | none, none, none => none }

/-- Wire response `mls::RegisterClientResponse`. -/
structure Mls.RegisterClientResponse where
  client_id : Nat
deriving Repr, DecidableEq

/-- Wire response `mls::GetClientResponse`. -/
structure Mls.GetClientResponse where
  client : Option Mls.Client
deriving Repr, DecidableEq

/-- Wire response `mls::ListClientsResponse`. -/
structure Mls.ListClientsResponse where
  clients : List Mls.Client
deriving Repr, DecidableEq

/-- Wire response `mls::PublishKeyPackageResponse`. -/
structure Mls.PublishKeyPackageResponse where
  key_package_id : Nat
deriving Repr, DecidableEq

/-- Wire response `mls::GetKeyPackageResponse`. -/
structure Mls.GetKeyPackageResponse where
  key_package : Option Mls.KeyPackage
deriving Repr, DecidableEq

/-- Wire response `mls::ListKeyPackagesResponse`. -/
structure Mls.ListKeyPackagesResponse where
  key_packages : List Mls.KeyPackage
deriving Repr, DecidableEq

/-- Wire response `mls::CreateGroupResponse`. -/
structure Mls.CreateGroupResponse where
  group_id : Nat
deriving Repr, DecidableEq

/-- Wire response `mls::GetGroupResponse`. -/
structure Mls.GetGroupResponse where
  group : Option Mls.Group
deriving Repr, DecidableEq

/-- Wire response `mls::ListGroupsResponse`. -/
structure Mls.ListGroupsResponse where
  groups : List Mls.Group
deriving Repr, DecidableEq

/-- Wire response `mls::AddMemberResponse`. -/
structure Mls.AddMemberResponse where
  membership_id : Nat
deriving Repr, DecidableEq

/-- Wire response `mls::RemoveMemberResponse`. -/
structure Mls.RemoveMemberResponse where
  success : Bool
deriving Repr, DecidableEq

/-- Wire response `mls::ListMembershipsResponse`. -/
structure Mls.ListMembershipsResponse where
  memberships : List Mls.Membership
deriving Repr, DecidableEq

/-- Wire response `mls::StoreProposalResponse`. -/
structure Mls.StoreProposalResponse where
  message_id : Nat
deriving Repr, DecidableEq

/-- Wire response `mls::StoreCommitResponse`. -/
structure Mls.StoreCommitResponse where
  message_id : Nat
deriving Repr, DecidableEq

/-- Wire response `mls::StoreWelcomeResponse`. -/
structure Mls.StoreWelcomeResponse where
  message_id : Nat
deriving Repr, DecidableEq

/-- Wire response `mls::FetchMessagesResponse`. -/
structure Mls.FetchMessagesResponse where
  messages : List Mls.Message
deriving Repr, DecidableEq

/-- Handler `register_client` (src/service/mod.rs).  `client_id` models
`Uuid::new_v4()`, `now` the `Utc::now()` observations, `init_key_bytes`
the serialized public half of the freshly derived HPKE key pair.  The
credential is the deterministic serialization of a `BasicCredential` built
from the identity bytes. -/
def Service.register_client (db : DatabaseInterface) (s : DSState)
    (req : Mls.RegisterClientRequest) (client_id now : Nat)
    (init_key_bytes : Bytes) :
    Except Status Mls.RegisterClientResponse × DSState :=
  match parse_uuid req.user_id with
  | .error e => (.error e, s)
  | .ok user_id =>
    let credential_bytes := credentialBytes req.identity
    let client : Db.Client :=
      { id := client_id, user_id := user_id,
        credential := credential_bytes, scheme := "basic",
        device_name := req.device_name, last_seen := now,
        created_at := now, init_key := some init_key_bytes }
    match db.register_client s client with
    | (.error e, s') => (.error (map_db_error e), s')
    | (.ok _, s') => (.ok { client_id := client_id }, s')

/-- Handler `get_client`: fetches the client, then updates `last_seen`
best-effort (`let _ = ...` discards the outcome but the store mutation
stands); the response carries the record as fetched. -/
def Service.get_client (db : DatabaseInterface) (s : DSState)
    (req : Mls.GetClientRequest) (now : Nat) :
    Except Status Mls.GetClientResponse × DSState :=
  match parse_uuid req.client_id with
  | .error e => (.error e, s)
  | .ok client_id =>
    match db.get_client s client_id with
    | (.error e, s') => (.error (map_db_error e), s')
    | (.ok c, s') =>
      let (_, s'') := db.update_client_last_seen s' client_id now
      (.ok { client := some (Mls.clientView c) }, s'')

/-- Handler `list_clients`. -/
def Service.list_clients (db : DatabaseInterface) (s : DSState)
    (req : Mls.ListClientsRequest) :
    Except Status Mls.ListClientsResponse × DSState :=
  match parse_uuid req.user_id with
  | .error e => (.error e, s)
  | .ok user_id =>
    match db.list_clients_by_user s user_id with
    | (.error e, s') => (.error (map_db_error e), s')
    | (.ok cs, s') => (.ok { clients := cs.map Mls.clientView }, s')

/-- Handler `publish_key_package`.  The supplied `req.key_package` bytes
are never validated and never stored: the handler fetches the client,
re-parses its stored credential (failure is `Internal`), then builds a
fresh key package server-side — `generated_kp` models the serialization of
the `KeyPackage::builder` output — and stores that with `used = false`.
`key_package_id` models `Uuid::new_v4()`. -/
def Service.publish_key_package (db : DatabaseInterface) (s : DSState)
    (req : Mls.PublishKeyPackageRequest) (key_package_id now : Nat)
    (generated_kp : Bytes) :
    Except Status Mls.PublishKeyPackageResponse × DSState :=
  match parse_uuid req.client_id with
  | .error e => (.error e, s)
  | .ok client_id =>
    match db.get_client s client_id with
    | (.error e, s') => (.error (map_db_error e), s')
    | (.ok c, s') =>
      match decodeCredential c.credential with
      | none =>
        (.error { code := .internal,
                  msg := "Failed to deserialize credential" }, s')
      | some _ =>
        let kp_record : Db.KeyPackage :=
          { id := key_package_id, client_id := client_id,
            data := generated_kp, created_at := now, used := false }
        match db.store_key_package s' kp_record with
        | (.error e, s'') => (.error (map_db_error e), s'')
        | (.ok _, s'') =>
          (.ok { key_package_id := key_package_id }, s'')

/-- Handler `get_key_package`: returns the stored record by id, whatever
its `used` flag. -/
def Service.get_key_package (db : DatabaseInterface) (s : DSState)
    (req : Mls.GetKeyPackageRequest) :
    Except Status Mls.GetKeyPackageResponse × DSState :=
  match parse_uuid req.key_package_id with
  | .error e => (.error e, s)
  | .ok key_package_id =>
    match db.get_key_package s key_package_id with
    | (.error e, s') => (.error (map_db_error e), s')
    | (.ok kp, s') =>
      (.ok { key_package := some (Mls.keyPackageView kp) }, s')

/-- Handler `list_key_packages`. -/
def Service.list_key_packages (db : DatabaseInterface) (s : DSState)
    (req : Mls.ListKeyPackagesRequest) :
    Except Status Mls.ListKeyPackagesResponse × DSState :=
  match parse_uuid req.client_id with
  | .error e => (.error e, s)
  | .ok client_id =>
    match db.list_key_packages_by_client s client_id with
    | (.error e, s') => (.error (map_db_error e), s')
    | (.ok kps, s') =>
      (.ok { key_packages := kps.map Mls.keyPackageView }, s')

/-- Handler `create_group`: validates the initial state, inserts the group
at epoch 0 with `is_active = true`, then inserts an admin membership for
the creator.  `group_id` and `membership_id` model the two
`Uuid::new_v4()` calls. -/
def Service.create_group (db : DatabaseInterface) (cfg : ServiceConfig)
    (s : DSState) (req : Mls.CreateGroupRequest)
    (group_id membership_id now : Nat) :
    Except Status Mls.CreateGroupResponse × DSState :=
  match parse_uuid req.creator_id with
  | .error e => (.error e, s)
  | .ok creator_id =>
    match validate_group_state cfg req.initial_state with
    | .error e => (.error e, s)
    | .ok _ =>
      let group : Db.Group :=
        { id := group_id, creator_id := creator_id, epoch := 0,
          state := some req.initial_state, created_at := now,
          updated_at := now, is_active := true }
      match db.create_group s group with
      | (.error e, s') => (.error (map_db_error e), s')
      | (.ok _, s') =>
        let membership : Db.Membership :=
          { id := membership_id, client_id := creator_id,
            group_id := group_id, role := "admin", added_at := now,
            removed_at := none }
        match db.add_membership s' membership with
        | (.error e, s'') => (.error (map_db_error e), s'')
        | (.ok _, s'') => (.ok { group_id := group_id }, s'')

/-- Handler `get_group`. -/
def Service.get_group (db : DatabaseInterface) (s : DSState)
    (req : Mls.GetGroupRequest) :
    Except Status Mls.GetGroupResponse × DSState :=
  match parse_uuid req.group_id with
  | .error e => (.error e, s)
  | .ok group_id =>
    match db.get_group s group_id with
    | (.error e, s') => (.error (map_db_error e), s')
    | (.ok g, s') => (.ok { group := some (Mls.groupView g) }, s')

/-- Handler `list_groups`. -/
def Service.list_groups (db : DatabaseInterface) (s : DSState)
    (req : Mls.ListGroupsRequest) :
    Except Status Mls.ListGroupsResponse × DSState :=
  match parse_uuid req.client_id with
  | .error e => (.error e, s)
  | .ok client_id =>
    match db.list_groups_by_client s client_id with
    | (.error e, s') => (.error (map_db_error e), s')
    | (.ok gs, s') => (.ok { groups := gs.map Mls.groupView }, s')

/-- Handler `add_member`: inserts a fresh membership with
`removed_at = None`; no check for an existing active membership and no
check that the group exists. -/
def Service.add_member (db : DatabaseInterface) (s : DSState)
    (req : Mls.AddMemberRequest) (membership_id now : Nat) :
    Except Status Mls.AddMemberResponse × DSState :=
  match parse_uuid req.group_id with
  | .error e => (.error e, s)
  | .ok group_id =>
    match parse_uuid req.client_id with
    | .error e => (.error e, s)
    | .ok client_id =>
      let membership : Db.Membership :=
        { id := membership_id, client_id := client_id,
          group_id := group_id, role := req.role, added_at := now,
          removed_at := none }
      match db.add_membership s membership with
      | (.error e, s') => (.error (map_db_error e), s')
      | (.ok _, s') => (.ok { membership_id := membership_id }, s')

/-- Handler `remove_member`: soft delete via the store, then
`success = true`. -/
def Service.remove_member (db : DatabaseInterface) (s : DSState)
    (req : Mls.RemoveMemberRequest) (now : Nat) :
    Except Status Mls.RemoveMemberResponse × DSState :=
  match parse_uuid req.membership_id with
  | .error e => (.error e, s)
  | .ok membership_id =>
    match db.remove_membership s membership_id now with
    | (.error e, s') => (.error (map_db_error e), s')
    | (.ok _, s') => (.ok { success := true }, s')

/-- Handler `list_memberships`. -/
def Service.list_memberships (db : DatabaseInterface) (s : DSState)
    (req : Mls.ListMembershipsRequest) :
    Except Status Mls.ListMembershipsResponse × DSState :=
  match parse_uuid req.group_id with
  | .error e => (.error e, s)
  | .ok group_id =>
    match db.list_memberships_by_group s group_id with
    | (.error e, s') => (.error (map_db_error e), s')
    | (.ok ms, s') =>
      (.ok { memberships := ms.map Mls.membershipView }, s')

/-- Handler `store_proposal`: validates, then stores a message of variant
"proposal" with no epoch. -/
def Service.store_proposal (db : DatabaseInterface) (cfg : ServiceConfig)
    (s : DSState) (req : Mls.StoreProposalRequest) (message_id now : Nat) :
    Except Status Mls.StoreProposalResponse × DSState :=
  match parse_uuid req.group_id with
  | .error e => (.error e, s)
  | .ok group_id =>
    match parse_uuid req.sender_id with
    | .error e => (.error e, s)
    | .ok sender_id =>
      match validate_proposal cfg req.proposal with
      | .error e => (.error e, s)
      | .ok _ =>
        let message : Db.Message :=
          { id := message_id, group_id := group_id,
            sender_id := sender_id, created_at := now, read := false,
            message_type := "proposal", proposal := some req.proposal,
            commit := none, welcome := none,
            proposal_type := some req.proposal_type, epoch := none,
            recipients := none }
        match db.store_message s message with
        | (.error e, s') => (.error (map_db_error e), s')
        | (.ok _, s') => (.ok { message_id := message_id }, s')

/-- Handler `store_commit`: validates, stores a message of variant
"commit" carrying `epoch = req.epoch as i64`, then separately calls
`update_group_epoch` with that same value — no comparison against the
group's current epoch, and no transaction around the two writes. -/
def Service.store_commit (db : DatabaseInterface) (cfg : ServiceConfig)
    (s : DSState) (req : Mls.StoreCommitRequest) (message_id now : Nat) :
    Except Status Mls.StoreCommitResponse × DSState :=
  match parse_uuid req.group_id with
  | .error e => (.error e, s)
  | .ok group_id =>
    match parse_uuid req.sender_id with
    | .error e => (.error e, s)
    | .ok sender_id =>
      match validate_commit cfg req.commit with
      | .error e => (.error e, s)
      | .ok _ =>
        let message : Db.Message :=
          { id := message_id, group_id := group_id,
            sender_id := sender_id, created_at := now, read := false,
            message_type := "commit", proposal := none,
            commit := some req.commit, welcome := none,
            proposal_type := none, epoch := some (i64_of_u64 req.epoch),
            recipients := none }
        match db.store_message s message with
        | (.error e, s') => (.error (map_db_error e), s')
        | (.ok _, s') =>
          match db.update_group_epoch s' group_id (i64_of_u64 req.epoch)
              now with
          | (.error e, s'') => (.error (map_db_error e), s'')
          | (.ok _, s'') => (.ok { message_id := message_id }, s'')

/-- `recipient_ids.iter().map(parse_uuid).collect::<Result<Vec<_>,_>>()`:
short-circuits on the first malformed id. -/
def parse_uuid_list : List (Option Nat) → Except Status (List Nat)
  | [] => .ok []
  | r :: rs =>
    match parse_uuid r with
    | .error e => .error e
    | .ok u =>
      match parse_uuid_list rs with
      | .error e => .error e
      | .ok us => .ok (u :: us)

/-- Handler `store_welcome`: validates, parses every recipient id before
any write, then stores a message of variant "welcome" carrying the
recipient list. -/
def Service.store_welcome (db : DatabaseInterface) (cfg : ServiceConfig)
    (s : DSState) (req : Mls.StoreWelcomeRequest) (message_id now : Nat) :
    Except Status Mls.StoreWelcomeResponse × DSState :=
  match parse_uuid req.group_id with
  | .error e => (.error e, s)
  | .ok group_id =>
    match parse_uuid req.sender_id with
    | .error e => (.error e, s)
    | .ok sender_id =>
      match validate_welcome cfg req.welcome with
      | .error e => (.error e, s)
      | .ok _ =>
        match parse_uuid_list req.recipient_ids with
        | .error e => (.error e, s)
        | .ok recipients =>
          let message : Db.Message :=
            { id := message_id, group_id := group_id,
              sender_id := sender_id, created_at := now, read := false,
              message_type := "welcome", proposal := none, commit := none,
              welcome := some req.welcome, proposal_type := none,
              epoch := none, recipients := some recipients }
          match db.store_message s message with
          | (.error e, s') => (.error (map_db_error e), s')
          | (.ok _, s') => (.ok { message_id := message_id }, s')

/-- Handler `fetch_messages`: an empty `group_id` string means no filter;
a non-empty one must parse. -/
def Service.fetch_messages (db : DatabaseInterface) (s : DSState)
    (req : Mls.FetchMessagesRequest) :
    Except Status Mls.FetchMessagesResponse × DSState :=
  match parse_uuid req.client_id with
  | .error e => (.error e, s)
  | .ok client_id =>
    match req.group_id with
    | none =>
      match db.fetch_messages_for_client s client_id none
          req.include_read with
      | (.error e, s') => (.error (map_db_error e), s')
      | (.ok ms, s') => (.ok { messages := ms.map Mls.messageView }, s')
    | some raw =>
      match parse_uuid raw with
      | .error e => (.error e, s)
      | .ok g =>
        match db.fetch_messages_for_client s client_id (some g)
            req.include_read with
        | (.error e, s') => (.error (map_db_error e), s')
        | (.ok ms, s') =>
          (.ok { messages := ms.map Mls.messageView }, s')

/-- One invocation of the delivery service's RPC surface: one constructor
per handler of the `MlsDeliveryService` impl, carrying the request
together with the handler's nondeterministic inputs (fresh uuids, clock,
crypto outputs).  `mark_messages_read` has no handler in
src/service/mod.rs, so it does not appear. -/
inductive ServiceOp where
  | registerClient (req : Mls.RegisterClientRequest)
      (client_id now : Nat) (init_key_bytes : Bytes)
  | getClient (req : Mls.GetClientRequest) (now : Nat)
  | listClients (req : Mls.ListClientsRequest)
  | publishKeyPackage (req : Mls.PublishKeyPackageRequest)
      (key_package_id now : Nat) (generated_kp : Bytes)
  | getKeyPackage (req : Mls.GetKeyPackageRequest)
  | listKeyPackages (req : Mls.ListKeyPackagesRequest)
  | createGroup (req : Mls.CreateGroupRequest)
      (group_id membership_id now : Nat)
  | getGroup (req : Mls.GetGroupRequest)
  | listGroups (req : Mls.ListGroupsRequest)
  | addMember (req : Mls.AddMemberRequest) (membership_id now : Nat)
  | removeMember (req : Mls.RemoveMemberRequest) (now : Nat)
  | listMemberships (req : Mls.ListMembershipsRequest)
  | storeProposal (req : Mls.StoreProposalRequest) (message_id now : Nat)
  | storeCommit (req : Mls.StoreCommitRequest) (message_id now : Nat)
  | storeWelcome (req : Mls.StoreWelcomeRequest) (message_id now : Nat)
  | fetchMessages (req : Mls.FetchMessagesRequest)

/-- The state reached after one service invocation against the Postgres
store (the response is discarded; partial writes persist). -/
def runOp (cfg : ServiceConfig) (s : DSState) : ServiceOp → DSState
  | .registerClient req cid now ik =>
    (Service.register_client PgDb s req cid now ik).2
  | .getClient req now => (Service.get_client PgDb s req now).2
  | .listClients req => (Service.list_clients PgDb s req).2
  | .publishKeyPackage req kid now gkp =>
    (Service.publish_key_package PgDb s req kid now gkp).2
  | .getKeyPackage req => (Service.get_key_package PgDb s req).2
  | .listKeyPackages req => (Service.list_key_packages PgDb s req).2
  | .createGroup req gid mid now =>
    (Service.create_group PgDb cfg s req gid mid now).2
  | .getGroup req => (Service.get_group PgDb s req).2
  | .listGroups req => (Service.list_groups PgDb s req).2
  | .addMember req mid now => (Service.add_member PgDb s req mid now).2
  | .removeMember req now => (Service.remove_member PgDb s req now).2
  | .listMemberships req => (Service.list_memberships PgDb s req).2
  | .storeProposal req mid now =>
    (Service.store_proposal PgDb cfg s req mid now).2
  | .storeCommit req mid now =>
    (Service.store_commit PgDb cfg s req mid now).2
  | .storeWelcome req mid now =>
    (Service.store_welcome PgDb cfg s req mid now).2
  | .fetchMessages req => (Service.fetch_messages PgDb s req).2

/-- The state after a sequence of service invocations. -/
def runOps (cfg : ServiceConfig) (ops : List ServiceOp) (s : DSState) :
    DSState :=
  ops.foldl (fun st op => runOp cfg st op) s

/-- Every key package in the store has `used = false`. -/
def allUnused (s : DSState) : Prop :=
  ∀ kp ∈ s.keyPackages, kp.used = false

/-- A service configuration with validation enabled and an external
Validator that rejects every key package it is shown. -/
def cfgStrict : ServiceConfig :=
  { skip_validation := false, kp_format_ok := fun _ => false }

/-- Fixture: a group with id 1 sitting at epoch 5. -/
def groupAtEpoch5 : Db.Group :=
  { id := 1, creator_id := 2, epoch := 5, state := some [1],
    created_at := 0, updated_at := 0, is_active := true }

/-- Fixture: a store holding only `groupAtEpoch5`. -/
def stEpoch5 : DSState := { DSState.empty with groups := [groupAtEpoch5] }

/-- Fixture: a key package already marked used. -/
def usedKp : Db.KeyPackage :=
  { id := 5, client_id := 3, data := [8, 8], created_at := 7, used := true }

/-- Fixture: a store holding only `usedKp`. -/
def stUsedKp : DSState := { DSState.empty with keyPackages := [usedKp] }

/-- Fixture: a membership of client 1 in group 2 whose `removed_at` is
set, and one message in group 2; client 1 has no other membership. -/
def stRemovedMember : DSState :=
  { DSState.empty with
    memberships := [{ id := 3, client_id := 1, group_id := 2,
                      role := "member", added_at := 0,
                      removed_at := some 10 }],
    messages := [{ id := 4, group_id := 2, sender_id := 9,
                   created_at := 1, read := false,
                   message_type := "proposal", proposal := some [7],
                   commit := none, welcome := none,
                   proposal_type := some "add", epoch := none,
                   recipients := none }] }

/-- Fixture: a registered client (id 7) whose stored credential is the
serialization the service itself would have written for identity byte 97. -/
def stOneClient : DSState :=
  { DSState.empty with
    clients := [{ id := 7, user_id := 1,
                  credential := credentialBytes [97], scheme := "basic",
                  device_name := "dev", last_seen := 0, created_at := 0,
                  init_key := none }] }


/-- Fixture: three key packages of client 3 — one used, two unused with
out-of-order timestamps. -/
def stKpMix : DSState :=
  { DSState.empty with
    keyPackages :=
      [usedKp,
       { id := 6, client_id := 3, data := [1], created_at := 2,
         used := false },
       { id := 8, client_id := 3, data := [2], created_at := 9,
         used := false }] }

/-- The wire view of the fixture message sitting in group 2. -/
def msg4View : Mls.Message :=
  { id := 4, group_id := 2, sender_id := 9, created_at := 1,
    read := false, message_type := "proposal",
    content := some (.proposal [7]) }

/-- The wire view of the fixture membership removed from group 2. -/
def removedMembershipView : Mls.Membership :=
  { id := 3, client_id := 1, group_id := 2, role := "member",
    added_at := 0, removed_at := some 10 }

/-- The key package the service generates in the C5 scenario. -/
def generatedKpRecord : Db.KeyPackage :=
  { id := 11, client_id := 7, data := [1, 2, 3], created_at := 50,
    used := false }

instance {ε α : Type} [DecidableEq ε] [DecidableEq α] :
    DecidableEq (Except ε α) := fun a b =>
  match a, b with
  | .ok x, .ok y =>
    if h : x = y then isTrue (congrArg Except.ok h)
    else isFalse (fun he => h (Except.ok.inj he))
  | .error x, .error y =>
    if h : x = y then isTrue (congrArg Except.error h)
    else isFalse (fun he => h (Except.error.inj he))
  | .ok _, .error _ => isFalse (fun he => Except.noConfusion he)
  | .error _, .ok _ => isFalse (fun he => Except.noConfusion he)

/-- The wire view of a freshly created group: epoch 0, active, the
initial state echoed back. -/
def mkGroupView (g_id creator now : Nat) (st : Bytes) : Mls.Group :=
  { id := g_id, creator_id := creator, epoch := 0, state := st,
    created_at := now, updated_at := now, is_active := true }

/-- The wire view of the creator's admin membership in a fresh group. -/
def mkAdminMembershipView (m_id creator g_id now : Nat) : Mls.Membership :=
  { id := m_id, client_id := creator, group_id := g_id, role := "admin",
    added_at := now, removed_at := none }

/-- The client record register_client persists: scheme basic, the device
name from the request, and the given credential bytes. -/
def mkRegisteredClient (cid uid now : Nat) (cred : Bytes) (dev : String)
    (ik : Bytes) : Db.Client :=
  { id := cid, user_id := uid, credential := cred, scheme := "basic",
    device_name := dev, last_seen := now, created_at := now,
    init_key := some ik }

/-- Fixture: the older unused key package of `stKpMix`. -/
def kpOlder : Db.KeyPackage :=
  { id := 6, client_id := 3, data := [1], created_at := 2, used := false }

/-- Fixture: the newer unused key package of `stKpMix`. -/
def kpNewer : Db.KeyPackage :=
  { id := 8, client_id := 3, data := [2], created_at := 9, used := false }

/-- `find?` skips a prefix on which the predicate is false. -/
theorem find?_append_of_forall_false {α : Type} (p : α → Bool)
    (l₁ l₂ : List α) (hl : ∀ x ∈ l₁, p x = false) :
    (l₁ ++ l₂).find? p = l₂.find? p := by
  induction l₁ with
  | nil => rfl
  | cons a l ih =>
    simp only [List.cons_append, List.find?_cons, hl a (by simp)]
    exact ih (fun x hx => hl x (by simp [hx]))

/-- The result of `sortNewestFirst` is sorted newest-first. -/
theorem sortNewestFirst_pairwise {α : Type} (ts : α → Nat) (l : List α) :
    (sortNewestFirst ts l).Pairwise (fun a b => ts b ≤ ts a) := by
  haveI : IsTotal α (fun a b => ts b ≤ ts a) :=
    ⟨fun a b => Nat.le_total _ _⟩
  haveI : IsTrans α (fun a b => ts b ≤ ts a) :=
    ⟨fun a b c hab hbc => Nat.le_trans hbc hab⟩
  exact List.sorted_insertionSort _ l

/-- `sortNewestFirst` is a permutation: same members. -/
theorem mem_sortNewestFirst {α : Type} (ts : α → Nat) (l : List α)
    (x : α) : x ∈ sortNewestFirst ts l ↔ x ∈ l :=
  List.mem_insertionSort _

/-- A non-empty state blob passes `validate_group_state` under any
configuration. -/
theorem validate_group_state_ok (cfg : ServiceConfig) (st : Bytes)
    (hst : st ≠ []) : validate_group_state cfg st = .ok () := by
  unfold validate_group_state
  cases cfg.skip_validation <;> simp [List.isEmpty_iff, hst]

/-- C1: the claim says a StoreCommit whose target epoch is at most the
group's current epoch is rejected and leaves the epoch unchanged.  The
code does the opposite: against the group at epoch 5, a commit targeting
epoch 3 is accepted (the handler never compares the target against the
current epoch), the commit message is stored, and the group's epoch is
overwritten to 3 — epochs observed over time need not increase. -/
theorem store_commit_accepts_nonincreasing_epoch :
    (Service.store_commit PgDb cfgStrict stEpoch5
        { group_id := some 1, sender_id := some 2, commit := [7],
          epoch := 3 } 99 50).1 = .ok { message_id := 99 }
    ∧ ((Service.store_commit PgDb cfgStrict stEpoch5
        { group_id := some 1, sender_id := some 2, commit := [7],
          epoch := 3 } 99 50).2.groups.map (fun g => g.epoch)) = [3]
    ∧ i64_of_u64 3 ≤ groupAtEpoch5.epoch := by
  refine ⟨by decide, by decide, by decide⟩

/-- C2: the claim says the commit-message write and the epoch advance are
all-or-nothing, so a failure (for example a missing group) leaves no
message behind.  Running store_commit against the mock store with no
groups: the call fails NotFound (the epoch update finds no group), yet the
commit message has already been persisted — the two writes are sequential,
not atomic. -/
theorem store_commit_message_kept_on_failure :
    (Service.store_commit MockDb cfgStrict DSState.empty
        { group_id := some 1, sender_id := some 2, commit := [7],
          epoch := 3 } 99 50).1
      = .error { code := .notFound, msg := "Resource not found" }
    ∧ ((Service.store_commit MockDb cfgStrict DSState.empty
        { group_id := some 1, sender_id := some 2, commit := [7],
          epoch := 3 } 99 50).2.messages.map (fun m => m.message_type))
      = ["commit"] := by
  refine ⟨by decide, by decide⟩

/-- C3 counterexample: GetKeyPackage does not restrict to unused packages:
on a store whose only package is already used, the handler returns that
package, used flag true and all — a caller can receive an already-consumed
package, contrary to the claim. -/
theorem get_key_package_returns_used_package :
    (Service.get_key_package PgDb stUsedKp
        { key_package_id := some 5 }).1
      = .ok { key_package := some (Mls.keyPackageView usedKp) }
    ∧ usedKp.used = true := by
  refine ⟨by decide, by decide⟩

/-- C3 (amended): ListKeyPackages returns only key packages whose used
flag is false, newest first; GetKeyPackage, by contrast, returns the
stored package with the requested id regardless of its used flag (the
single-package Postgres query has no used filter), so only the list
operation shields callers from consumed packages. -/
theorem list_key_packages_unused_newest_first (s : DSState) (c kpid : Nat)
    (resp : Mls.ListKeyPackagesResponse) (kp : Db.KeyPackage)
    (hl : (Service.list_key_packages PgDb s
        { client_id := some c }).1 = .ok resp)
    (hg : s.keyPackages.find? (fun x => x.id == kpid) = some kp) :
    (∀ v ∈ resp.key_packages, v.used = false)
    ∧ resp.key_packages.Pairwise (fun a b => b.created_at ≤ a.created_at)
    ∧ (Service.get_key_package PgDb s
        { key_package_id := some kpid }).1
      = .ok { key_package := some (Mls.keyPackageView kp) } := by
  have hresp : resp.key_packages =
      (sortNewestFirst (fun kp => kp.created_at)
        (s.keyPackages.filter
          (fun kp => kp.client_id == c && kp.used == false))).map
        Mls.keyPackageView := by
    simp only [Service.list_key_packages, parse_uuid, PgDb,
      Pg.list_key_packages_by_client] at hl
    cases hl
    rfl
  refine ⟨?_, ?_, ?_⟩
  · intro v hv
    rw [hresp] at hv
    obtain ⟨x, hx, rfl⟩ := List.mem_map.mp hv
    rw [mem_sortNewestFirst] at hx
    have hfx := List.of_mem_filter hx
    simp only [Bool.and_eq_true, beq_iff_eq] at hfx
    simpa [Mls.keyPackageView] using hfx.2
  · rw [hresp, List.pairwise_map]
    exact sortNewestFirst_pairwise _ _
  · simp only [Service.get_key_package, parse_uuid, PgDb,
      Pg.get_key_package, hg]

/-- C3 witness: on the mixed store, the list response for client 3 holds
exactly the two unused packages newest first, and GetKeyPackage hands back
the used one. -/
theorem list_key_packages_unused_newest_first_witness :
    (∀ v ∈ (Mls.ListKeyPackagesResponse.mk
        [Mls.keyPackageView kpNewer,
         Mls.keyPackageView kpOlder]).key_packages,
      v.used = false)
    ∧ (Mls.ListKeyPackagesResponse.mk
        [Mls.keyPackageView kpNewer,
         Mls.keyPackageView kpOlder]).key_packages.Pairwise
        (fun a b => b.created_at ≤ a.created_at)
    ∧ (Service.get_key_package PgDb stKpMix
        { key_package_id := some 5 }).1
      = .ok { key_package := some (Mls.keyPackageView usedKp) } :=
  list_key_packages_unused_newest_first stKpMix 3 5 _ usedKp
    (by decide) (by decide)

/-- C4: the claim says a client whose only membership in a group is
removed no longer receives the group from ListGroups nor its messages from
FetchMessages, with or without a group filter.  ListGroups does exclude
the group, but both forms of FetchMessages still deliver the message: the
Postgres message query joins memberships without any removed_at
condition. -/
theorem fetch_messages_ignores_removed_membership :
    (Service.list_groups PgDb stRemovedMember
        { client_id := some 1 }).1 = .ok { groups := [] }
    ∧ (Service.fetch_messages PgDb stRemovedMember
        { client_id := some 1, group_id := none,
          include_read := true }).1
      = .ok { messages := [msg4View] }
    ∧ (Service.fetch_messages PgDb stRemovedMember
        { client_id := some 1, group_id := some (some 2),
          include_read := true }).1
      = .ok { messages := [msg4View] } := by
  refine ⟨by decide, by decide, by decide⟩

/-- C5: the claim says PublishKeyPackage runs the Validator on the
supplied bytes, rejects invalid ones with nothing persisted, and otherwise
stores the supplied bytes with used false.  The handler never calls the
validator and never reads the supplied bytes: with validation enabled and
an empty (certainly invalid) supplied key package, the call succeeds and
persists a server-generated package instead — although the service's own
validate_key_package rejects that same input. -/
theorem publish_key_package_ignores_supplied_bytes :
    (Service.publish_key_package PgDb stOneClient
        { client_id := some 7, key_package := [] } 11 50 [1, 2, 3]).1
      = .ok { key_package_id := 11 }
    ∧ (Service.publish_key_package PgDb stOneClient
        { client_id := some 7, key_package := [] }
        11 50 [1, 2, 3]).2.keyPackages = [generatedKpRecord]
    ∧ validate_key_package cfgStrict []
      = .error { code := .invalidArgument, msg := "Empty key package" }
    := by
  refine ⟨by decide, by decide, by decide⟩

/-- C6: the claim (and the repository's own test, which asserts removed
memberships are included) says ListMemberships returns every membership of
the group, removal history visible.  The Postgres query filters
removed_at IS NULL: on a group whose only membership is removed it returns
nothing, while the mock store the tests run against returns the row. -/
theorem list_memberships_hides_removed :
    (Service.list_memberships PgDb stRemovedMember
        { group_id := some 2 }).1 = .ok { memberships := [] }
    ∧ (Service.list_memberships MockDb stRemovedMember
        { group_id := some 2 }).1
      = .ok { memberships := [removedMembershipView] } := by
  refine ⟨by decide, by decide⟩

/-- C8: the claim says RemoveMember fails NotFound when the membership id
is unknown.  Against the Postgres store the UPDATE matches zero rows and
still reports success, so the handler answers success true on an empty
store; the mock store (which the test suite exercises) answers NotFound as
the claim demands. -/
theorem remove_member_unknown_id_succeeds :
    (Service.remove_member PgDb DSState.empty
        { membership_id := some 42 } 50).1 = .ok { success := true }
    ∧ (Service.remove_member MockDb DSState.empty
        { membership_id := some 42 } 50).1
      = .error { code := .notFound, msg := "Resource not found" } := by
  refine ⟨by decide, by decide⟩

/-- Every element fails the predicate, so the filter is empty. -/
theorem filter_eq_nil_of_forall_false {α : Type} (p : α → Bool)
    (l : List α) (h : ∀ x ∈ l, p x = false) : l.filter p = [] := by
  induction l with
  | nil => rfl
  | cons a l ih =>
    rw [List.filter_cons, h a (by simp)]
    exact ih (fun x hx => h x (by simp [hx]))

/-- C7: after a successful CreateGroup with a fresh group id, GetGroup
answers epoch 0, active, with the initial state byte-identical, and
ListMemberships holds exactly one membership: the creator as admin. -/
theorem create_group_admin_snapshot (s : DSState)
    (cfg : ServiceConfig) (creator g_id m_id now : Nat) (st : Bytes)
    (hst : st ≠ [])
    (hg : ∀ g ∈ s.groups, g.id ≠ g_id)
    (hm : ∀ m ∈ s.memberships, m.group_id ≠ g_id) :
    (Service.create_group PgDb cfg s
        { creator_id := some creator, initial_state := st }
        g_id m_id now).1 = .ok { group_id := g_id }
    ∧ (Service.get_group PgDb
        (Service.create_group PgDb cfg s
          { creator_id := some creator, initial_state := st }
          g_id m_id now).2
        { group_id := some g_id }).1
      = .ok { group := some (mkGroupView g_id creator now st) }
    ∧ (Service.list_memberships PgDb
        (Service.create_group PgDb cfg s
          { creator_id := some creator, initial_state := st }
          g_id m_id now).2
        { group_id := some g_id }).1
      = .ok { memberships := [mkAdminMembershipView m_id creator g_id now] }
    := by
  have hv := validate_group_state_ok cfg st hst
  have hgf : ∀ x ∈ s.groups, (fun g : Db.Group => g.id == g_id) x = false :=
    fun x hx => by
      simp only [beq_eq_false_iff_ne]
      exact hg x hx
  have hmf : ∀ x ∈ s.memberships,
      (fun m : Db.Membership =>
        m.group_id == g_id && m.removed_at == none) x = false :=
    fun x hx => by
      simp only [Bool.and_eq_false_iff, beq_eq_false_iff_ne]
      exact Or.inl (hm x hx)
  refine ⟨?_, ?_, ?_⟩
  · simp [Service.create_group, parse_uuid, hv, PgDb, Pg.create_group,
      Pg.add_membership]
  · simp only [Service.create_group, parse_uuid, hv, PgDb,
      Pg.create_group, Pg.add_membership, Service.get_group, Pg.get_group]
    rw [find?_append_of_forall_false _ _ _ hgf]
    simp [Mls.groupView, mkGroupView, u64_of_i64]
  · simp only [Service.create_group, parse_uuid, hv, PgDb,
      Pg.create_group, Pg.add_membership, Service.list_memberships,
      Pg.list_memberships_by_group]
    rw [List.filter_append, filter_eq_nil_of_forall_false _ _ hmf]
    simp [Mls.membershipView, mkAdminMembershipView]

/-- C7 witness: the scenario at a concrete store — create group 1 with
state bytes 9, 9, 9 for creator 2, then read it back. -/
theorem create_group_admin_snapshot_witness :
    (Service.create_group PgDb cfgStrict DSState.empty
        { creator_id := some 2, initial_state := [9, 9, 9] } 1 3 50).1
      = .ok { group_id := 1 }
    ∧ (Service.get_group PgDb
        (Service.create_group PgDb cfgStrict DSState.empty
          { creator_id := some 2, initial_state := [9, 9, 9] } 1 3 50).2
        { group_id := some 1 }).1
      = .ok { group := some (mkGroupView 1 2 50 [9, 9, 9]) }
    ∧ (Service.list_memberships PgDb
        (Service.create_group PgDb cfgStrict DSState.empty
          { creator_id := some 2, initial_state := [9, 9, 9] } 1 3 50).2
        { group_id := some 1 }).1
      = .ok { memberships := [mkAdminMembershipView 3 2 1 50] } :=
  create_group_admin_snapshot DSState.empty cfgStrict 2 1 3 50
    [9, 9, 9] (by decide) (by decide) (by decide)

/-- C9: the credential bytes the service stores are a deterministic
function of the identity alone — two registrations with the same identity
persist byte-identical credentials — and every registered client is stored
with scheme basic and the device name from its request. -/
theorem register_client_deterministic_credential
    (s₁ s₂ : DSState) (r₁ r₂ : Mls.RegisterClientRequest)
    (u₁ u₂ cid₁ cid₂ now₁ now₂ : Nat) (ik₁ ik₂ : Bytes)
    (h₁ : r₁.user_id = some u₁) (h₂ : r₂.user_id = some u₂)
    (hid : r₁.identity = r₂.identity) :
    ∃ cred : Bytes,
      (Service.register_client PgDb s₁ r₁ cid₁ now₁ ik₁).2.clients
        = s₁.clients ++
          [mkRegisteredClient cid₁ u₁ now₁ cred r₁.device_name ik₁]
      ∧ (Service.register_client PgDb s₂ r₂ cid₂ now₂ ik₂).2.clients
        = s₂.clients ++
          [mkRegisteredClient cid₂ u₂ now₂ cred r₂.device_name ik₂] := by
  refine ⟨credentialBytes r₁.identity, ?_, ?_⟩
  · simp [Service.register_client, h₁, parse_uuid, PgDb,
      Pg.register_client, mkRegisteredClient]
  · simp [Service.register_client, h₂, parse_uuid, PgDb,
      Pg.register_client, mkRegisteredClient, hid]

/-- C9 witness: two registrations of identity byte 97 from different
devices and stores persist the same credential bytes. -/
theorem register_client_deterministic_credential_witness :
    ∃ cred : Bytes,
      (Service.register_client PgDb DSState.empty
          { user_id := some 1, identity := [97], device_name := "a" }
          4 10 [5]).2.clients
        = DSState.empty.clients ++
          [mkRegisteredClient 4 1 10 cred "a" [5]]
      ∧ (Service.register_client PgDb stOneClient
          { user_id := some 2, identity := [97], device_name := "b" }
          6 20 [7]).2.clients
        = stOneClient.clients ++
          [mkRegisteredClient 6 2 20 cred "b" [7]] :=
  register_client_deterministic_credential DSState.empty stOneClient
    { user_id := some 1, identity := [97], device_name := "a" }
    { user_id := some 2, identity := [97], device_name := "b" }
    1 2 4 6 10 20 [5] [7] (by decide) (by decide) (by decide)

/-- A state with the same key-package table inherits `allUnused`. -/
theorem allUnused_of_keyPackages_eq (s s' : DSState) (h : allUnused s)
    (he : s'.keyPackages = s.keyPackages) : allUnused s' :=
  fun kp hkp => h kp (he ▸ hkp)

/-- register_client never touches the key-package table. -/
theorem keyPackages_register_client (s : DSState)
    (req : Mls.RegisterClientRequest) (cid now : Nat) (ik : Bytes) :
    (Service.register_client PgDb s req cid now ik).2.keyPackages
      = s.keyPackages := by
  cases hq : parse_uuid req.user_id <;>
    simp [Service.register_client, hq, PgDb, Pg.register_client]

/-- get_client never touches the key-package table. -/
theorem keyPackages_get_client (s : DSState) (req : Mls.GetClientRequest)
    (now : Nat) :
    (Service.get_client PgDb s req now).2.keyPackages = s.keyPackages := by
  cases hq : parse_uuid req.client_id with
  | error e => simp [Service.get_client, hq]
  | ok cid =>
    cases hf : s.clients.find? (fun c => c.id == cid) <;>
      simp [Service.get_client, hq, PgDb, Pg.get_client, hf,
        Pg.update_client_last_seen]

/-- list_clients never touches the key-package table. -/
theorem keyPackages_list_clients (s : DSState)
    (req : Mls.ListClientsRequest) :
    (Service.list_clients PgDb s req).2.keyPackages = s.keyPackages := by
  cases hq : parse_uuid req.user_id <;>
    simp [Service.list_clients, hq, PgDb, Pg.list_clients_by_user]

/-- Every key package publish_key_package leaves in the store was either
already there or is the fresh record with used = false. -/
theorem keyPackages_publish_key_package_mem (s : DSState)
    (req : Mls.PublishKeyPackageRequest) (kid now : Nat) (gkp : Bytes)
    (kp : Db.KeyPackage)
    (hkp : kp ∈
      (Service.publish_key_package PgDb s req kid now gkp).2.keyPackages) :
    kp ∈ s.keyPackages ∨ kp.used = false := by
  cases hq : parse_uuid req.client_id with
  | error e =>
    rw [Service.publish_key_package, hq] at hkp
    exact .inl hkp
  | ok cid =>
    cases hf : s.clients.find? (fun c => c.id == cid) with
    | none =>
      rw [Service.publish_key_package, hq] at hkp
      simp only [PgDb, Pg.get_client, hf] at hkp
      exact .inl hkp
    | some c =>
      cases hd : decodeCredential c.credential with
      | none =>
        rw [Service.publish_key_package, hq] at hkp
        simp only [PgDb, Pg.get_client, hf, hd] at hkp
        exact .inl hkp
      | some ident =>
        rw [Service.publish_key_package, hq] at hkp
        simp only [PgDb, Pg.get_client, hf, hd,
          Pg.store_key_package, List.mem_append,
          List.mem_singleton] at hkp
        rcases hkp with hin | rfl
        · exact .inl hin
        · exact .inr rfl

/-- get_key_package never touches the key-package table. -/
theorem keyPackages_get_key_package (s : DSState)
    (req : Mls.GetKeyPackageRequest) :
    (Service.get_key_package PgDb s req).2.keyPackages = s.keyPackages := by
  cases hq : parse_uuid req.key_package_id with
  | error e => simp [Service.get_key_package, hq]
  | ok kid =>
    cases hf : s.keyPackages.find? (fun x => x.id == kid) <;>
      simp [Service.get_key_package, hq, PgDb, Pg.get_key_package, hf]

/-- list_key_packages never touches the key-package table. -/
theorem keyPackages_list_key_packages (s : DSState)
    (req : Mls.ListKeyPackagesRequest) :
    (Service.list_key_packages PgDb s req).2.keyPackages
      = s.keyPackages := by
  cases hq : parse_uuid req.client_id <;>
    simp [Service.list_key_packages, hq, PgDb,
      Pg.list_key_packages_by_client]

/-- create_group never touches the key-package table. -/
theorem keyPackages_create_group (cfg : ServiceConfig) (s : DSState)
    (req : Mls.CreateGroupRequest) (gid mid now : Nat) :
    (Service.create_group PgDb cfg s req gid mid now).2.keyPackages
      = s.keyPackages := by
  cases hq : parse_uuid req.creator_id with
  | error e => simp [Service.create_group, hq]
  | ok cid =>
    cases hv : validate_group_state cfg req.initial_state <;>
      simp [Service.create_group, hq, hv, PgDb, Pg.create_group,
        Pg.add_membership]

/-- get_group never touches the key-package table. -/
theorem keyPackages_get_group (s : DSState) (req : Mls.GetGroupRequest) :
    (Service.get_group PgDb s req).2.keyPackages = s.keyPackages := by
  cases hq : parse_uuid req.group_id with
  | error e => simp [Service.get_group, hq]
  | ok gid =>
    cases hf : s.groups.find? (fun g => g.id == gid) <;>
      simp [Service.get_group, hq, PgDb, Pg.get_group, hf]

/-- list_groups never touches the key-package table. -/
theorem keyPackages_list_groups (s : DSState)
    (req : Mls.ListGroupsRequest) :
    (Service.list_groups PgDb s req).2.keyPackages = s.keyPackages := by
  cases hq : parse_uuid req.client_id <;>
    simp [Service.list_groups, hq, PgDb, Pg.list_groups_by_client]

/-- add_member never touches the key-package table. -/
theorem keyPackages_add_member (s : DSState) (req : Mls.AddMemberRequest)
    (mid now : Nat) :
    (Service.add_member PgDb s req mid now).2.keyPackages
      = s.keyPackages := by
  cases hq : parse_uuid req.group_id with
  | error e => simp [Service.add_member, hq]
  | ok gid =>
    cases hc : parse_uuid req.client_id <;>
      simp [Service.add_member, hq, hc, PgDb, Pg.add_membership]

/-- remove_member never touches the key-package table. -/
theorem keyPackages_remove_member (s : DSState)
    (req : Mls.RemoveMemberRequest) (now : Nat) :
    (Service.remove_member PgDb s req now).2.keyPackages
      = s.keyPackages := by
  cases hq : parse_uuid req.membership_id <;>
    simp [Service.remove_member, hq, PgDb, Pg.remove_membership]

/-- list_memberships never touches the key-package table. -/
theorem keyPackages_list_memberships (s : DSState)
    (req : Mls.ListMembershipsRequest) :
    (Service.list_memberships PgDb s req).2.keyPackages
      = s.keyPackages := by
  cases hq : parse_uuid req.group_id <;>
    simp [Service.list_memberships, hq, PgDb,
      Pg.list_memberships_by_group]

/-- store_proposal never touches the key-package table. -/
theorem keyPackages_store_proposal (cfg : ServiceConfig) (s : DSState)
    (req : Mls.StoreProposalRequest) (mid now : Nat) :
    (Service.store_proposal PgDb cfg s req mid now).2.keyPackages
      = s.keyPackages := by
  cases hq : parse_uuid req.group_id with
  | error e => simp [Service.store_proposal, hq]
  | ok gid =>
    cases hs : parse_uuid req.sender_id with
    | error e => simp [Service.store_proposal, hq, hs]
    | ok sid =>
      cases hv : validate_proposal cfg req.proposal <;>
        simp [Service.store_proposal, hq, hs, hv, PgDb, Pg.store_message]

/-- store_commit never touches the key-package table. -/
theorem keyPackages_store_commit (cfg : ServiceConfig) (s : DSState)
    (req : Mls.StoreCommitRequest) (mid now : Nat) :
    (Service.store_commit PgDb cfg s req mid now).2.keyPackages
      = s.keyPackages := by
  cases hq : parse_uuid req.group_id with
  | error e => simp [Service.store_commit, hq]
  | ok gid =>
    cases hs : parse_uuid req.sender_id with
    | error e => simp [Service.store_commit, hq, hs]
    | ok sid =>
      cases hv : validate_commit cfg req.commit <;>
        simp [Service.store_commit, hq, hs, hv, PgDb, Pg.store_message,
          Pg.update_group_epoch]

/-- store_welcome never touches the key-package table. -/
theorem keyPackages_store_welcome (cfg : ServiceConfig) (s : DSState)
    (req : Mls.StoreWelcomeRequest) (mid now : Nat) :
    (Service.store_welcome PgDb cfg s req mid now).2.keyPackages
      = s.keyPackages := by
  cases hq : parse_uuid req.group_id with
  | error e => simp [Service.store_welcome, hq]
  | ok gid =>
    cases hs : parse_uuid req.sender_id with
    | error e => simp [Service.store_welcome, hq, hs]
    | ok sid =>
      cases hv : validate_welcome cfg req.welcome with
      | error e => simp [Service.store_welcome, hq, hs, hv]
      | ok u =>
        cases hr : parse_uuid_list req.recipient_ids <;>
          simp [Service.store_welcome, hq, hs, hv, hr, PgDb,
            Pg.store_message]

/-- fetch_messages never touches the key-package table. -/
theorem keyPackages_fetch_messages (s : DSState)
    (req : Mls.FetchMessagesRequest) :
    (Service.fetch_messages PgDb s req).2.keyPackages = s.keyPackages := by
  cases hq : parse_uuid req.client_id with
  | error e => simp [Service.fetch_messages, hq]
  | ok cid =>
    cases hgr : req.group_id with
    | none =>
      simp [Service.fetch_messages, hq, hgr, PgDb,
        Pg.fetch_messages_for_client]
    | some raw =>
      cases hg : parse_uuid raw <;>
        simp [Service.fetch_messages, hq, hgr, hg, PgDb,
          Pg.fetch_messages_for_client]

/-- One service invocation against the Postgres store preserves the
everything-unused invariant: no handler calls mark_key_package_used, and
the only key-package write appends a record with used = false. -/
theorem runOp_preserves_allUnused (cfg : ServiceConfig) (s : DSState)
    (op : ServiceOp) (h : allUnused s) : allUnused (runOp cfg s op) := by
  cases op with
  | registerClient req cid now ik =>
    exact allUnused_of_keyPackages_eq s _ h
      (keyPackages_register_client s req cid now ik)
  | getClient req now =>
    exact allUnused_of_keyPackages_eq s _ h
      (keyPackages_get_client s req now)
  | listClients req =>
    exact allUnused_of_keyPackages_eq s _ h
      (keyPackages_list_clients s req)
  | publishKeyPackage req kid now gkp =>
    intro kp hkp
    rcases keyPackages_publish_key_package_mem s req kid now gkp kp hkp
      with hin | hu
    · exact h kp hin
    · exact hu
  | getKeyPackage req =>
    exact allUnused_of_keyPackages_eq s _ h
      (keyPackages_get_key_package s req)
  | listKeyPackages req =>
    exact allUnused_of_keyPackages_eq s _ h
      (keyPackages_list_key_packages s req)
  | createGroup req gid mid now =>
    exact allUnused_of_keyPackages_eq s _ h
      (keyPackages_create_group cfg s req gid mid now)
  | getGroup req =>
    exact allUnused_of_keyPackages_eq s _ h (keyPackages_get_group s req)
  | listGroups req =>
    exact allUnused_of_keyPackages_eq s _ h (keyPackages_list_groups s req)
  | addMember req mid now =>
    exact allUnused_of_keyPackages_eq s _ h
      (keyPackages_add_member s req mid now)
  | removeMember req now =>
    exact allUnused_of_keyPackages_eq s _ h
      (keyPackages_remove_member s req now)
  | listMemberships req =>
    exact allUnused_of_keyPackages_eq s _ h
      (keyPackages_list_memberships s req)
  | storeProposal req mid now =>
    exact allUnused_of_keyPackages_eq s _ h
      (keyPackages_store_proposal cfg s req mid now)
  | storeCommit req mid now =>
    exact allUnused_of_keyPackages_eq s _ h
      (keyPackages_store_commit cfg s req mid now)
  | storeWelcome req mid now =>
    exact allUnused_of_keyPackages_eq s _ h
      (keyPackages_store_welcome cfg s req mid now)
  | fetchMessages req =>
    exact allUnused_of_keyPackages_eq s _ h
      (keyPackages_fetch_messages s req)

/-- C10: no handler of the RPC surface ever invokes the store's
mark_key_package_used: under any sequence of service operations against
the Postgres store, if every stored key package is unused then it stays
unused — in particular, packages persisted by PublishKeyPackage (stored
with used = false) keep used = false forever. -/
theorem service_never_marks_key_packages_used (cfg : ServiceConfig)
    (ops : List ServiceOp) (s : DSState) (h : allUnused s) :
    allUnused (runOps cfg ops s) := by
  induction ops generalizing s with
  | nil => exact h
  | cons op rest ih =>
    exact ih (runOp cfg s op) (runOp_preserves_allUnused cfg s op h)

/-- C10 witness: starting from the empty store, a register, a publish and
a commit leave every stored key package unused. -/
theorem service_never_marks_key_packages_used_witness :
    allUnused (runOps cfgStrict
      [.registerClient
          { user_id := some 1, identity := [97], device_name := "a" }
          7 10 [5],
       .publishKeyPackage { client_id := some 7, key_package := [] }
          11 50 [1, 2, 3],
       .storeCommit
          { group_id := some 1, sender_id := some 2, commit := [7],
            epoch := 3 } 99 60]
      DSState.empty) :=
  service_never_marks_key_packages_used cfgStrict
    [.registerClient
        { user_id := some 1, identity := [97], device_name := "a" }
        7 10 [5],
     .publishKeyPackage { client_id := some 7, key_package := [] }
        11 50 [1, 2, 3],
     .storeCommit
        { group_id := some 1, sender_id := some 2, commit := [7],
          epoch := 3 } 99 60]
    DSState.empty (fun kp hkp => absurd hkp (by simp [DSState.empty]))
